import Mathlib

/-!
Verification of the ShelfSense synthetic telemetry core
(`src/app/api/simulation/route.ts`).

The TypeScript source consumes `Math.random()` (values in `[0,1)`); here the
random source is modelled as an explicit stream `Rng : ℕ → ℚ` of draws,
consumed in exactly the order the source consumes them.  JavaScript numbers
are modelled as exact rationals (every literal appearing in the source is a
decimal fraction, so no rounding is involved in the quantities the claims
talk about).  `Date.now()` / `new Date().toISOString()` are modelled by an
explicit `now : ℕ` parameter.
-/

/-- A `Math.random()` stream: the `n`-th call returns `r n`. -/
abbrev Rng := ℕ → ℚ

/-- Advancing the random stream past the first `k` draws. -/
def shiftRng (r : Rng) (k : ℕ) : Rng := fun n => r (n + k)

/-- The `Math.random()` contract: every draw lies in `[0, 1)`. -/
def ValidRng (r : Rng) : Prop := ∀ n, 0 ≤ r n ∧ r n < 1

/-- One entry of the static product database `PRODUCTS` in the source. -/
structure Product where
  id : String
  name : String
  category : String
  brand : String
  price : ℚ
  deriving Repr, DecidableEq

/-- The fixed 10-element product database from the top of the route file. -/
def PRODUCTS : List Product :=
  [ ⟨"P001", "Coca Cola 2L", "Beverages", "Coca Cola", 2.99⟩,
    ⟨"P002", "Pepsi 2L", "Beverages", "Pepsi", 2.79⟩,
    ⟨"P003", "Sprite 2L", "Beverages", "Coca Cola", 2.89⟩,
    ⟨"P004", "Mountain Dew 2L", "Beverages", "Pepsi", 2.99⟩,
    ⟨"P005", "Lays Classic", "Snacks", "Lays", 3.49⟩,
    ⟨"P006", "Doritos Nacho", "Snacks", "Doritos", 3.79⟩,
    ⟨"P007", "Cheetos Puffs", "Snacks", "Cheetos", 3.29⟩,
    ⟨"P008", "Pringles Original", "Snacks", "Pringles", 2.99⟩,
    ⟨"P009", "Tide Detergent", "Household", "Tide", 12.99⟩,
    ⟨"P010", "Bounty Paper Towels", "Household", "Bounty", 8.99⟩ ]

/-- Stand-in for the out-of-range array access `PRODUCTS[i]` (which never
happens for a valid random source, see the catalog-safety theorem). -/
def dummyProduct : Product := ⟨"", "", "", "", 0⟩

/-- Bounding box of a detection. -/
structure BBox where
  x : ℤ
  y : ℤ
  width : ℤ
  height : ℤ
  deriving Repr, DecidableEq

/-- One synthetic detection, as pushed onto `detections` in the loop of
`generateShelfSnapshot`. -/
structure Detection where
  detection_id : String
  product_id : String
  product_name : String
  category : String
  brand : String
  confidence : ℚ
  bbox : BBox
  is_misplaced : Bool
  is_low_stock : Bool
  timestamp : String
  deriving Repr, DecidableEq

/-- The `metrics` object of a shelf snapshot. -/
structure Metrics where
  total_products : ℕ
  unique_products : ℕ
  avg_confidence : ℚ
  total_value : ℚ
  misplaced_count : ℕ
  low_stock_count : ℕ
  deriving Repr, DecidableEq

/-- The `condition` object of a shelf snapshot. -/
structure Condition where
  overall_score : ℚ
  condition : String
  alerts : ℕ
  deriving Repr, DecidableEq

/-- A full shelf snapshot as returned by `generateShelfSnapshot`. -/
structure ShelfSnapshot where
  snapshot_id : String
  shelf_id : String
  store_id : String
  timestamp : String
  detections : List Detection
  metrics : Metrics
  condition : Condition
  processing_time_ms : ℤ
  deriving Repr, DecidableEq

/-- The body of the detection loop: the `i`-th iteration consumes the eight
draws `r (8*i) … r (8*i+7)` in source order (product pick, confidence,
bbox x, y, width, height, `is_misplaced`, `is_low_stock`). -/
def detectionAt (shelfId : String) (now : ℕ) (r : Rng) (i : ℕ) : Detection :=
  let product := PRODUCTS.getD (⌊r (8 * i) * (PRODUCTS.length : ℚ)⌋).toNat dummyProduct
  { detection_id := "det_" ++ shelfId ++ "_" ++ toString i ++ "_" ++ toString now
    product_id := product.id
    product_name := product.name
    category := product.category
    brand := product.brand
    confidence := 0.85 + r (8 * i + 1) * 0.14
    bbox :=
      { x := ⌊r (8 * i + 2) * 1600⌋ + 50
        y := ⌊r (8 * i + 3) * 800⌋ + 50
        width := ⌊r (8 * i + 4) * 120⌋ + 80
        height := ⌊r (8 * i + 5) * 150⌋ + 100 }
    is_misplaced := decide (r (8 * i + 6) < 0.05)
    is_low_stock := decide (r (8 * i + 7) < 0.15)
    timestamp := toString now }

/-- `numProducts = Math.floor(Math.random() * 15) + 10`, the first draw of
`generateShelfSnapshot`. -/
def drawCount (r : Rng) : ℕ := (⌊r 0 * 15⌋).toNat + 10

/-- The detection list produced by the loop of `generateShelfSnapshot`:
`numProducts` iterations of the loop body, consuming the stream after the
`numProducts` draw. -/
def shelfDetections (shelfId : String) (now : ℕ) (r : Rng) : List Detection :=
  (List.range (drawCount r)).map (detectionAt shelfId now (shiftRng r 1))

/-- The catalog lookup inside the `totalValue` reduction:
`PRODUCTS.find(p => p.id === d.product_id)` with the `|| 0` price fallback. -/
def catalogPrice (pid : String) : ℚ :=
  ((PRODUCTS.find? (fun p => p.id == pid)).map Product.price).getD 0

/-- `detections.reduce((sum, d) => ..., 0)` computing `totalValue`. -/
def totalValueOf (l : List Detection) : ℚ :=
  l.foldl (fun sum d => sum + catalogPrice d.product_id) 0

/-- `detections.filter(d => d.is_misplaced).length`. -/
def misplacedCountOf (l : List Detection) : ℕ :=
  (l.filter (fun d => d.is_misplaced)).length

/-- `detections.filter(d => d.is_low_stock).length`. -/
def lowStockCountOf (l : List Detection) : ℕ :=
  (l.filter (fun d => d.is_low_stock)).length

/-- `Math.max(0, 100 - misplaced*10 - lowStock*5 + (numProducts/20)*30)`. -/
def conditionScoreOf (numProducts misplaced lowStock : ℕ) : ℚ :=
  max 0 (100 - (misplaced : ℚ) * 10 - (lowStock : ℚ) * 5
          + ((numProducts : ℚ) / 20) * 30)

/-- The cascade of `if (conditionScore < …)` reassignments that fixes the
condition label. -/
def conditionLabelOf (score : ℚ) : String :=
  if score < 50 then "Poor"
  else if score < 70 then "Fair"
  else if score < 85 then "Good"
  else "Excellent"

/-- `generateShelfSnapshot(shelfId, storeId)` from the source, with the
random stream and clock explicit.  Draw order: one draw for `numProducts`,
then eight per detection, then one for `processing_time_ms`. -/
def generateShelfSnapshot (shelfId storeId : String) (now : ℕ) (r : Rng) :
    ShelfSnapshot :=
  let numProducts := drawCount r
  let detections := shelfDetections shelfId now r
  let misplacedCount := misplacedCountOf detections
  let lowStockCount := lowStockCountOf detections
  let conditionScore := conditionScoreOf numProducts misplacedCount lowStockCount
  { snapshot_id := "snap_" ++ shelfId ++ "_" ++ toString now
    shelf_id := shelfId
    store_id := storeId
    timestamp := toString now
    detections := detections
    metrics :=
      { total_products := detections.length
        unique_products := (detections.map (fun d => d.product_id)).dedup.length
        avg_confidence :=
          detections.foldl (fun sum d => sum + d.confidence) 0 / (detections.length : ℚ)
        total_value := totalValueOf detections
        misplaced_count := misplacedCount
        low_stock_count := lowStockCount }
    condition :=
      { overall_score := conditionScore
        condition := conditionLabelOf conditionScore
        alerts := misplacedCount + lowStockCount }
    processing_time_ms := ⌊r (1 + 8 * numProducts) * 170⌋ + 80 }

example : (generateShelfSnapshot "shelf_1" "store_1" 0 (fun _ => 1/2)).detections.length = 17 := by
  show (shelfDetections "shelf_1" 0 (fun _ => 1/2)).length = 17
  rw [shelfDetections, List.length_map, List.length_range, drawCount]
  norm_num
  rfl

/-- The number of draws one call to `generateShelfSnapshot` consumes from
the stream (count draw, eight per detection, processing-time draw). -/
def shelfDraws (r : Rng) : ℕ := 2 + 8 * drawCount r

/-- The shelf loop of `generateStoreAnalytics`: snapshots for shelves
`shelf_(i+1), …`, threading the random stream. -/
def generateShelvesFrom (storeId : String) (now : ℕ) : Rng → ℕ → ℕ → List ShelfSnapshot
  | _, _, 0 => []
  | r, i, n + 1 =>
      generateShelfSnapshot ("shelf_" ++ toString (i + 1)) storeId now r ::
        generateShelvesFrom storeId now (shiftRng r (shelfDraws r)) (i + 1) n

/-- The `summary` object of the store analytics. -/
structure Summary where
  total_shelves : ℤ
  total_products : ℕ
  total_value : ℚ
  avg_confidence : ℚ
  total_alerts : ℕ
  efficiency_score : ℚ
  deriving Repr, DecidableEq

/-- The `performance` object of the store analytics. -/
structure Performance where
  excellent_shelves : ℕ
  good_shelves : ℕ
  fair_shelves : ℕ
  poor_shelves : ℕ
  deriving Repr, DecidableEq

/-- A full store analytics object as returned by `generateStoreAnalytics`. -/
structure StoreAnalytics where
  store_id : String
  timestamp : String
  summary : Summary
  shelf_snapshots : List ShelfSnapshot
  performance : Performance
  deriving Repr, DecidableEq

/-- `generateStoreAnalytics(storeId, numShelves = 12)` from the source.
`numShelves` is a JavaScript number, modelled as `ℤ`; the `for` loop runs
`max numShelves 0` (that is, `numShelves.toNat`) times.  In JavaScript the
two divisions below yield `NaN` when `shelves` is empty (`0/0`); in `ℚ`
division by zero yields `0` — none of the claims depends on that value. -/
def generateStoreAnalytics (storeId : String) (numShelves : ℤ) (now : ℕ) (r : Rng) :
    StoreAnalytics :=
  let shelves := generateShelvesFrom storeId now r 0 numShelves.toNat
  { store_id := storeId
    timestamp := toString now
    summary :=
      { total_shelves := numShelves
        total_products := shelves.foldl (fun sum s => sum + s.metrics.total_products) 0
        total_value := shelves.foldl (fun sum s => sum + s.metrics.total_value) 0
        avg_confidence :=
          shelves.foldl (fun sum s => sum + s.metrics.avg_confidence) 0 / (shelves.length : ℚ)
        total_alerts := shelves.foldl (fun sum s => sum + s.condition.alerts) 0
        efficiency_score :=
          (((shelves.filter (fun s => 70 ≤ s.condition.overall_score)).length : ℚ)
            / (numShelves : ℚ)) * 100 }
    shelf_snapshots := shelves
    performance :=
      { excellent_shelves := (shelves.filter (fun s => s.condition.condition == "Excellent")).length
        good_shelves := (shelves.filter (fun s => s.condition.condition == "Good")).length
        fair_shelves := (shelves.filter (fun s => s.condition.condition == "Fair")).length
        poor_shelves := (shelves.filter (fun s => s.condition.condition == "Poor")).length } }

/-- A stream event type drawn from the weighted distribution. -/
structure StreamEvent where
  type : String
  cameraId : ℕ
  deriving Repr, DecidableEq

/-- Error raised by the stream scheduler on a bad configuration. -/
inductive StreamError where
  | InvalidConfiguration
  deriving Repr, DecidableEq

/-- Configuration of the stream scheduler's `simulate`. -/
structure StreamConfig where
  cameraCount : ℤ
  durationSeconds : ℚ
  frameRate : ℚ
  wDetection : ℚ
  wAlert : ℚ
  wStatus : ℚ
  deriving Repr, DecidableEq

/-- Modelled from the spec: the StreamScheduler's configuration check.  The
stream scheduler source (`ml-service` `stream_simulator`) is not present
under `src/`; per the spec, `simulate` validates that the event-type
weights sum to 1.0 within tolerance 1e-6 and that cameraCount,
durationSeconds and frameRate are positive. -/
def validStreamConfig (c : StreamConfig) : Bool :=
  decide (|c.wDetection + c.wAlert + c.wStatus - 1| ≤ 1/1000000) &&
    decide (0 < c.cameraCount) && decide (0 < c.durationSeconds) &&
    decide (0 < c.frameRate)

/-- Modelled from the spec: drawing one event type from the weighted
distribution using a single uniform draw. -/
def drawEventType (c : StreamConfig) (q : ℚ) : String :=
  if q < c.wDetection then "detection"
  else if q < c.wDetection + c.wAlert then "alert"
  else "status"

/-- Modelled from the spec: the StreamScheduler's `simulate`, absent from
`src/` (only its `ml-service` README survives).  On an invalid
configuration it fails with `InvalidConfiguration` before emitting any
StreamEvent; on a valid one each of the `cameraCount` camera loops emits
one event per frame for `durationSeconds` at `frameRate`. -/
def simulate (c : StreamConfig) (r : Rng) : Except StreamError (List StreamEvent) :=
  if validStreamConfig c then
    let frames := (⌊c.durationSeconds * c.frameRate⌋).toNat
    Except.ok ((List.range c.cameraCount.toNat).flatMap (fun cam =>
      (List.range frames).map (fun i =>
        { type := drawEventType c (r (cam * frames + i)), cameraId := cam })))
  else
    Except.error StreamError.InvalidConfiguration

/-- The condition-category thresholds as the spec words them (score ≥ 85 →
Excellent, 70 ≤ score < 85 → Good, 50 ≤ score < 70 → Fair, score < 50 →
Poor), for comparison with the source's cascade of reassignments. -/
def specCategory (score : ℚ) : String :=
  if 85 ≤ score then "Excellent"
  else if 70 ≤ score then "Good"
  else if 50 ≤ score then "Fair"
  else "Poor"

/-! Projection lemmas: the fields of a generated snapshot, stated through
the named components. -/

lemma snapshot_detections (shelfId storeId : String) (now : ℕ) (r : Rng) :
    (generateShelfSnapshot shelfId storeId now r).detections = shelfDetections shelfId now r := rfl

lemma snapshot_total_products (shelfId storeId : String) (now : ℕ) (r : Rng) :
    (generateShelfSnapshot shelfId storeId now r).metrics.total_products =
      (shelfDetections shelfId now r).length := rfl

lemma snapshot_unique_products (shelfId storeId : String) (now : ℕ) (r : Rng) :
    (generateShelfSnapshot shelfId storeId now r).metrics.unique_products =
      ((shelfDetections shelfId now r).map (fun d => d.product_id)).dedup.length := rfl

lemma snapshot_avg_confidence (shelfId storeId : String) (now : ℕ) (r : Rng) :
    (generateShelfSnapshot shelfId storeId now r).metrics.avg_confidence =
      (shelfDetections shelfId now r).foldl (fun sum d => sum + d.confidence) 0
        / ((shelfDetections shelfId now r).length : ℚ) := rfl

lemma snapshot_total_value (shelfId storeId : String) (now : ℕ) (r : Rng) :
    (generateShelfSnapshot shelfId storeId now r).metrics.total_value =
      totalValueOf (shelfDetections shelfId now r) := rfl

lemma snapshot_misplaced_count (shelfId storeId : String) (now : ℕ) (r : Rng) :
    (generateShelfSnapshot shelfId storeId now r).metrics.misplaced_count =
      misplacedCountOf (shelfDetections shelfId now r) := rfl

lemma snapshot_low_stock_count (shelfId storeId : String) (now : ℕ) (r : Rng) :
    (generateShelfSnapshot shelfId storeId now r).metrics.low_stock_count =
      lowStockCountOf (shelfDetections shelfId now r) := rfl

lemma snapshot_overall_score (shelfId storeId : String) (now : ℕ) (r : Rng) :
    (generateShelfSnapshot shelfId storeId now r).condition.overall_score =
      conditionScoreOf (drawCount r) (misplacedCountOf (shelfDetections shelfId now r))
        (lowStockCountOf (shelfDetections shelfId now r)) := rfl

lemma snapshot_condition_label (shelfId storeId : String) (now : ℕ) (r : Rng) :
    (generateShelfSnapshot shelfId storeId now r).condition.condition =
      conditionLabelOf ((generateShelfSnapshot shelfId storeId now r).condition.overall_score) := rfl

lemma snapshot_alerts (shelfId storeId : String) (now : ℕ) (r : Rng) :
    (generateShelfSnapshot shelfId storeId now r).condition.alerts =
      misplacedCountOf (shelfDetections shelfId now r)
        + lowStockCountOf (shelfDetections shelfId now r) := rfl

/-! Basic facts about the shelf generator. -/

lemma shelfDetections_length (shelfId : String) (now : ℕ) (r : Rng) :
    (shelfDetections shelfId now r).length = drawCount r := by
  rw [shelfDetections, List.length_map, List.length_range]

lemma drawCount_ge (r : Rng) : 10 ≤ drawCount r := by
  rw [drawCount]; omega

lemma drawCount_le (r : Rng) (hr : ValidRng r) : drawCount r ≤ 24 := by
  obtain ⟨h0, h1⟩ := hr 0
  have hf : ⌊r 0 * 15⌋ ≤ 14 := by
    have : r 0 * 15 < 15 := by nlinarith
    have h15 : ⌊r 0 * 15⌋ < (15 : ℤ) := by
      rw [Int.floor_lt]; exact_mod_cast this
    omega
  rw [drawCount]
  omega

lemma foldl_add_eq_sum {α : Type} (f : α → ℚ) (l : List α) :
    l.foldl (fun sum x => sum + f x) 0 = (l.map f).sum := by
  have h : ∀ a : ℚ, l.foldl (fun sum x => sum + f x) a = a + (l.map f).sum := by
    induction l with
    | nil => intro a; simp
    | cons x xs ih => intro a; simp [List.foldl_cons, ih, add_assoc]
  simpa using h 0

lemma getD_mem {α : Type} (l : List α) (n : ℕ) (d : α) (h : n < l.length) :
    l.getD n d ∈ l := by
  induction l generalizing n with
  | nil => simp at h
  | cons x xs ih =>
      cases n with
      | zero => simp [List.getD]
      | succ m =>
          have hm : m < xs.length := by simpa using h
          simpa [List.getD] using Or.inr (ih m hm)

lemma conditionLabelOf_mem (q : ℚ) :
    conditionLabelOf q = "Excellent" ∨ conditionLabelOf q = "Good" ∨
      conditionLabelOf q = "Fair" ∨ conditionLabelOf q = "Poor" := by
  rw [conditionLabelOf]
  split_ifs <;> simp

/-! Facts about the store aggregator's shelf loop. -/

lemma generateShelvesFrom_length (storeId : String) (now : ℕ) (n : ℕ) :
    ∀ (r : Rng) (i : ℕ), (generateShelvesFrom storeId now r i n).length = n := by
  induction n with
  | zero => intro r i; rfl
  | succ m ih =>
      intro r i
      rw [generateShelvesFrom, List.length_cons, ih]

lemma generateShelvesFrom_mem (storeId : String) (now : ℕ) (n : ℕ) :
    ∀ (r : Rng) (i : ℕ) (s : ShelfSnapshot), s ∈ generateShelvesFrom storeId now r i n →
      ∃ (shelfId : String) (r2 : Rng), s = generateShelfSnapshot shelfId storeId now r2 := by
  induction n with
  | zero => intro r i s hs; simp [generateShelvesFrom] at hs
  | succ m ih =>
      intro r i s hs
      rw [generateShelvesFrom, List.mem_cons] at hs
      rcases hs with h | h
      · exact ⟨"shelf_" ++ toString (i + 1), r, h⟩
      · exact ih (shiftRng r (shelfDraws r)) (i + 1) s h

lemma four_filter_partition (l : List ShelfSnapshot)
    (h : ∀ s ∈ l, s.condition.condition = "Excellent" ∨ s.condition.condition = "Good" ∨
      s.condition.condition = "Fair" ∨ s.condition.condition = "Poor") :
    (l.filter (fun s => s.condition.condition == "Excellent")).length +
    (l.filter (fun s => s.condition.condition == "Good")).length +
    (l.filter (fun s => s.condition.condition == "Fair")).length +
    (l.filter (fun s => s.condition.condition == "Poor")).length = l.length := by
  induction l with
  | nil => rfl
  | cons a t ih =>
      have ha := h a (List.mem_cons_self a t)
      have ih2 := ih (fun s hs => h s (List.mem_cons_of_mem a hs))
      rcases ha with h1 | h1 | h1 | h1 <;>
        simp [List.filter_cons, h1] <;> omega

lemma analytics_shelves (storeId : String) (numShelves : ℤ) (now : ℕ) (r : Rng) :
    (generateStoreAnalytics storeId numShelves now r).shelf_snapshots =
      generateShelvesFrom storeId now r 0 numShelves.toNat := rfl

lemma detectionAt_is_misplaced (shelfId : String) (now : ℕ) (r : Rng) (i : ℕ) :
    (detectionAt shelfId now r i).is_misplaced = decide (r (8 * i + 6) < 0.05) := rfl

lemma detectionAt_is_low_stock (shelfId : String) (now : ℕ) (r : Rng) (i : ℕ) :
    (detectionAt shelfId now r i).is_low_stock = decide (r (8 * i + 7) < 0.15) := rfl

lemma detectionAt_confidence (shelfId : String) (now : ℕ) (r : Rng) (i : ℕ) :
    (detectionAt shelfId now r i).confidence = 0.85 + r (8 * i + 1) * 0.14 := rfl

lemma detectionAt_product_id (shelfId : String) (now : ℕ) (r : Rng) (i : ℕ) :
    (detectionAt shelfId now r i).product_id =
      (PRODUCTS.getD (⌊r (8 * i) * (PRODUCTS.length : ℚ)⌋).toNat dummyProduct).id := rfl

lemma misplacedCountOf_eq_zero {l : List Detection}
    (h : ∀ d ∈ l, d.is_misplaced = false) : misplacedCountOf l = 0 := by
  rw [misplacedCountOf, List.length_eq_zero, List.filter_eq_nil_iff]
  intro d hd
  simp [h d hd]

lemma lowStockCountOf_eq_zero {l : List Detection}
    (h : ∀ d ∈ l, d.is_low_stock = false) : lowStockCountOf l = 0 := by
  rw [lowStockCountOf, List.length_eq_zero, List.filter_eq_nil_iff]
  intro d hd
  simp [h d hd]

lemma conditionLabelOf_eq_specCategory (q : ℚ) : conditionLabelOf q = specCategory q := by
  rw [conditionLabelOf, specCategory]
  split_ifs <;> first | rfl | linarith

lemma analytics_performance (storeId : String) (numShelves : ℤ) (now : ℕ) (r : Rng) :
    (generateStoreAnalytics storeId numShelves now r).performance =
      { excellent_shelves := ((generateShelvesFrom storeId now r 0 numShelves.toNat).filter
          (fun s => s.condition.condition == "Excellent")).length
        good_shelves := ((generateShelvesFrom storeId now r 0 numShelves.toNat).filter
          (fun s => s.condition.condition == "Good")).length
        fair_shelves := ((generateShelvesFrom storeId now r 0 numShelves.toNat).filter
          (fun s => s.condition.condition == "Fair")).length
        poor_shelves := ((generateShelvesFrom storeId now r 0 numShelves.toNat).filter
          (fun s => s.condition.condition == "Poor")).length } := rfl

/-- C2: whenever the builder's internal count draw yields
`count ∈ [10, 24]`, the snapshot has exactly `count` detections and
`metrics.total_products = count`. -/
theorem C2_build_count (shelfId storeId : String) (now : ℕ) (r : Rng) (count : ℕ)
    (h10 : 10 ≤ count) (h24 : count ≤ 24) (hc : drawCount r = count) :
    (generateShelfSnapshot shelfId storeId now r).detections.length = count ∧
      (generateShelfSnapshot shelfId storeId now r).metrics.total_products = count := by
  constructor
  · rw [snapshot_detections, shelfDetections_length, hc]
  · rw [snapshot_total_products, shelfDetections_length, hc]

/-- C2 witness: a stream whose first draw is 1/3 yields count 15, and the
snapshot has exactly 15 detections and total_products 15. -/
theorem C2_build_count_witness :
    (generateShelfSnapshot "shelf_1" "store_1" 0 (fun _ => (1/3 : ℚ))).detections.length = 15 ∧
      (generateShelfSnapshot "shelf_1" "store_1" 0 (fun _ => (1/3 : ℚ))).metrics.total_products
        = 15 :=
  C2_build_count "shelf_1" "store_1" 0 (fun _ => 1/3) 15 (by norm_num) (by norm_num)
    (by rw [drawCount]; norm_num; rfl)

/-- C3 counterexample: the detection generator, invoked with the empty
shelfId, succeeds and produces 17 detection events (at the stream
constantly 1/2) instead of failing with InvalidArgument. -/
theorem C3_empty_shelfId_generates :
    (generateShelfSnapshot "" "store_1" 0 (fun _ => (1/2 : ℚ))).detections.length = 17 := by
  rw [snapshot_detections, shelfDetections_length, drawCount]
  norm_num
  rfl

/-- C3 amended: the generator performs no shelfId validation; for every
shelfId — the empty string included — generation succeeds, producing
between 10 and 24 detection events. -/
theorem C3_no_shelfId_validation (shelfId storeId : String) (now : ℕ) (r : Rng)
    (hr : ValidRng r) :
    10 ≤ (generateShelfSnapshot shelfId storeId now r).detections.length ∧
      (generateShelfSnapshot shelfId storeId now r).detections.length ≤ 24 := by
  rw [snapshot_detections, shelfDetections_length]
  exact ⟨drawCount_ge r, drawCount_le r hr⟩

/-- C3 amended witness: generation with the empty shelfId. -/
theorem C3_no_shelfId_validation_witness :
    10 ≤ (generateShelfSnapshot "" "store_1" 0 (fun _ => (2/3 : ℚ))).detections.length ∧
      (generateShelfSnapshot "" "store_1" 0 (fun _ => (2/3 : ℚ))).detections.length ≤ 24 :=
  C3_no_shelfId_validation "" "store_1" 0 (fun _ => 2/3)
    (fun _ => ⟨by norm_num, by norm_num⟩)

/-- C4 counterexample: the store aggregator invoked with shelfCount 0
returns a StoreAnalytics value — empty snapshot list, `total_shelves = 0` —
rather than failing with InvalidArgument before producing output. -/
theorem C4_zero_shelfCount_returns_output :
    (generateStoreAnalytics "store_1" 0 0 (fun _ => (1/2 : ℚ))).shelf_snapshots = [] ∧
      (generateStoreAnalytics "store_1" 0 0 (fun _ => (1/2 : ℚ))).summary.total_shelves = 0 :=
  ⟨rfl, rfl⟩

/-- C4 amended: the aggregator performs no shelfCount validation; for every
shelfCount ≤ 0 it returns a StoreAnalytics whose snapshot list is empty and
whose `total_shelves` echoes the argument (in JavaScript the two averaged
summary fields are then NaN), never an InvalidArgument failure. -/
theorem C4_no_shelfCount_validation (storeId : String) (now : ℕ) (r : Rng) (N : ℤ)
    (hN : N ≤ 0) :
    (generateStoreAnalytics storeId N now r).shelf_snapshots = [] ∧
      (generateStoreAnalytics storeId N now r).summary.total_shelves = N := by
  have h0 : N.toNat = 0 := Int.toNat_of_nonpos hN
  constructor
  · rw [analytics_shelves, h0]
    rfl
  · rfl

/-- C4 amended witness: shelfCount −3. -/
theorem C4_no_shelfCount_validation_witness :
    (generateStoreAnalytics "store_1" (-3) 0 (fun _ => (1/2 : ℚ))).shelf_snapshots = [] ∧
      (generateStoreAnalytics "store_1" (-3) 0 (fun _ => (1/2 : ℚ))).summary.total_shelves
        = -3 :=
  C4_no_shelfCount_validation "store_1" 0 (fun _ => 1/2) (-3) (by norm_num)

/-- C6: the condition category of every snapshot is determined from its
score by the fixed thresholds (≥ 85 Excellent, [70, 85) Good, [50, 70)
Fair, < 50 Poor). -/
theorem C6_category_thresholds (shelfId storeId : String) (now : ℕ) (r : Rng) :
    (generateShelfSnapshot shelfId storeId now r).condition.condition =
      specCategory ((generateShelfSnapshot shelfId storeId now r).condition.overall_score) := by
  rw [snapshot_condition_label, conditionLabelOf_eq_specCategory]

/-- C7: every metric of a snapshot is the stated pure reduction of its
detections list: length, distinct productIds, mean confidence, summed
catalog prices, and the two flag counts. -/
theorem C7_metrics_pure_reduction (shelfId storeId : String) (now : ℕ) (r : Rng) :
    (generateShelfSnapshot shelfId storeId now r).metrics.total_products =
        (generateShelfSnapshot shelfId storeId now r).detections.length ∧
      (generateShelfSnapshot shelfId storeId now r).metrics.unique_products =
        (((generateShelfSnapshot shelfId storeId now r).detections.map
          (fun d => d.product_id)).dedup).length ∧
      (generateShelfSnapshot shelfId storeId now r).metrics.avg_confidence =
        ((generateShelfSnapshot shelfId storeId now r).detections.map
            (fun d => d.confidence)).sum
          / ((generateShelfSnapshot shelfId storeId now r).detections.length : ℚ) ∧
      (generateShelfSnapshot shelfId storeId now r).metrics.total_value =
        ((generateShelfSnapshot shelfId storeId now r).detections.map
          (fun d => catalogPrice d.product_id)).sum ∧
      (generateShelfSnapshot shelfId storeId now r).metrics.misplaced_count =
        ((generateShelfSnapshot shelfId storeId now r).detections.filter
          (fun d => d.is_misplaced)).length ∧
      (generateShelfSnapshot shelfId storeId now r).metrics.low_stock_count =
        ((generateShelfSnapshot shelfId storeId now r).detections.filter
          (fun d => d.is_low_stock)).length := by
  refine ⟨rfl, rfl, ?_, ?_, rfl, rfl⟩
  · rw [snapshot_avg_confidence, snapshot_detections, foldl_add_eq_sum]
  · rw [snapshot_total_value, snapshot_detections, totalValueOf, foldl_add_eq_sum]

/-- C8: the confidence of every generated detection lies in [0.85, 0.99]
(the sampled value `0.85 + u·0.14` with `u ∈ [0, 1)` in fact stays strictly
below 0.99). -/
theorem C8_confidence_bounds (shelfId storeId : String) (now : ℕ) (r : Rng)
    (hr : ValidRng r) (d : Detection)
    (hd : d ∈ (generateShelfSnapshot shelfId storeId now r).detections) :
    0.85 ≤ d.confidence ∧ d.confidence ≤ 0.99 := by
  rw [snapshot_detections, shelfDetections] at hd
  obtain ⟨i, _, rfl⟩ := List.mem_map.1 hd
  obtain ⟨h0, h1⟩ := hr (8 * i + 1 + 1)
  rw [detectionAt_confidence]
  have hs : shiftRng r 1 (8 * i + 1) = r (8 * i + 1 + 1) := rfl
  rw [hs]
  constructor <;> nlinarith

/-- C8 witness: the first detection of a snapshot drawn from the stream
constantly 1/2 has confidence in [0.85, 0.99]. -/
theorem C8_confidence_bounds_witness :
    0.85 ≤ (detectionAt "shelf_1" 0 (shiftRng (fun _ => (1/2 : ℚ)) 1) 0).confidence ∧
      (detectionAt "shelf_1" 0 (shiftRng (fun _ => (1/2 : ℚ)) 1) 0).confidence ≤ 0.99 :=
  C8_confidence_bounds "shelf_1" "store_1" 0 (fun _ => 1/2)
    (fun _ => ⟨by norm_num, by norm_num⟩)
    (detectionAt "shelf_1" 0 (shiftRng (fun _ => (1/2 : ℚ)) 1) 0)
    (by
      rw [snapshot_detections, shelfDetections]
      refine List.mem_map_of_mem _ (List.mem_range.2 ?_)
      have h := drawCount_ge (fun _ => (1/2 : ℚ))
      omega)

/-- C1: the source caps the condition score only from below
(`Math.max(0, …)`, no upper clamp).  At the stream constantly 19/20 — 24
detections, no misplaced or low-stock flags — the score is
100 + (24/20)·30 = 136, exceeding the claimed (and documented) maximum of
100, where the claimed clamp formula would give 100. -/
theorem C1_score_exceeds_100 :
    (generateShelfSnapshot "shelf_1" "store_1" 0
        (fun _ => (19/20 : ℚ))).condition.overall_score = 136 ∧
      100 < (generateShelfSnapshot "shelf_1" "store_1" 0
        (fun _ => (19/20 : ℚ))).condition.overall_score := by
  have hm : misplacedCountOf (shelfDetections "shelf_1" 0 (fun _ => (19/20 : ℚ))) = 0 := by
    apply misplacedCountOf_eq_zero
    intro d hd
    rw [shelfDetections] at hd
    obtain ⟨i, _, rfl⟩ := List.mem_map.1 hd
    rw [detectionAt_is_misplaced]
    simp only [shiftRng, decide_eq_false_iff_not, not_lt]
    norm_num
  have hl : lowStockCountOf (shelfDetections "shelf_1" 0 (fun _ => (19/20 : ℚ))) = 0 := by
    apply lowStockCountOf_eq_zero
    intro d hd
    rw [shelfDetections] at hd
    obtain ⟨i, _, rfl⟩ := List.mem_map.1 hd
    rw [detectionAt_is_low_stock]
    simp only [shiftRng, decide_eq_false_iff_not, not_lt]
    norm_num
  have hc : drawCount (fun _ => (19/20 : ℚ)) = 24 := by
    rw [drawCount]
    norm_num
    rfl
  have hs : (generateShelfSnapshot "shelf_1" "store_1" 0
      (fun _ => (19/20 : ℚ))).condition.overall_score = 136 := by
    rw [snapshot_overall_score, hm, hl, hc, conditionScoreOf]
    norm_num
  exact ⟨hs, by rw [hs]; norm_num⟩

/-- C5: a stream configuration whose event-type weights do not sum to 1
within 1e-6, or whose cameraCount, durationSeconds or frameRate is not
positive, is rejected by `simulate` with InvalidConfiguration; no
StreamEvent is produced. -/
theorem C5_invalid_config_rejected (c : StreamConfig) (r : Rng)
    (h : 1/1000000 < |c.wDetection + c.wAlert + c.wStatus - 1| ∨
      c.cameraCount ≤ 0 ∨ c.durationSeconds ≤ 0 ∨ c.frameRate ≤ 0) :
    simulate c r = Except.error StreamError.InvalidConfiguration := by
  have hv : validStreamConfig c = false := by
    rw [validStreamConfig]
    rcases h with h | h | h | h
    · have h2 : decide (|c.wDetection + c.wAlert + c.wStatus - 1| ≤ 1/1000000) = false :=
        decide_eq_false (not_le.2 h)
      rw [h2, Bool.false_and, Bool.false_and, Bool.false_and]
    · have h2 : decide (0 < c.cameraCount) = false := decide_eq_false (not_lt.2 h)
      rw [h2, Bool.and_false, Bool.false_and, Bool.false_and]
    · have h2 : decide (0 < c.durationSeconds) = false := decide_eq_false (not_lt.2 h)
      rw [h2, Bool.and_false, Bool.false_and]
    · have h2 : decide (0 < c.frameRate) = false := decide_eq_false (not_lt.2 h)
      rw [h2, Bool.and_false]
  rw [simulate, hv]
  rfl

/-- C5 witness: weights [0.5, 0.2, 0.1] (sum 0.8) are rejected. -/
theorem C5_invalid_config_rejected_witness :
    simulate ⟨4, 30, 30, 0.5, 0.2, 0.1⟩ (fun _ => (1/2 : ℚ)) =
      Except.error StreamError.InvalidConfiguration :=
  C5_invalid_config_rejected ⟨4, 30, 30, 0.5, 0.2, 0.1⟩ (fun _ => 1/2)
    (Or.inl (by
      have h : (0.5 : ℚ) + 0.2 + 0.1 - 1 = -(1/5) := by norm_num
      rw [h, abs_neg, abs_of_nonneg (by norm_num : (0 : ℚ) ≤ 1/5)]
      norm_num))

/-- C9: for every store analytics built with shelfCount N > 0, the four
performance buckets sum to N, the number of shelf snapshots. -/
theorem C9_buckets_sum (storeId : String) (now : ℕ) (r : Rng) (N : ℤ) (hN : 0 < N) :
    ((generateStoreAnalytics storeId N now r).performance.excellent_shelves : ℤ) +
        (generateStoreAnalytics storeId N now r).performance.good_shelves +
        (generateStoreAnalytics storeId N now r).performance.fair_shelves +
        (generateStoreAnalytics storeId N now r).performance.poor_shelves = N ∧
      ((generateStoreAnalytics storeId N now r).shelf_snapshots.length : ℤ) = N := by
  have hmem : ∀ s ∈ generateShelvesFrom storeId now r 0 N.toNat,
      s.condition.condition = "Excellent" ∨ s.condition.condition = "Good" ∨
        s.condition.condition = "Fair" ∨ s.condition.condition = "Poor" := by
    intro s hs
    obtain ⟨shelfId, r2, rfl⟩ := generateShelvesFrom_mem storeId now N.toNat r 0 s hs
    rw [snapshot_condition_label]
    exact conditionLabelOf_mem _
  have hpart := four_filter_partition _ hmem
  have hlen := generateShelvesFrom_length storeId now N.toNat r 0
  rw [hlen] at hpart
  constructor
  · rw [analytics_performance]
    simp only []
    omega
  · rw [analytics_shelves, hlen]
    omega

/-- C9 witness: one shelf, buckets summing to 1. -/
theorem C9_buckets_sum_witness :
    ((generateStoreAnalytics "store_1" 1 0 (fun _ => (1/2 : ℚ))).performance.excellent_shelves
          : ℤ) +
        (generateStoreAnalytics "store_1" 1 0 (fun _ => (1/2 : ℚ))).performance.good_shelves +
        (generateStoreAnalytics "store_1" 1 0 (fun _ => (1/2 : ℚ))).performance.fair_shelves +
        (generateStoreAnalytics "store_1" 1 0 (fun _ => (1/2 : ℚ))).performance.poor_shelves
          = 1 ∧
      ((generateStoreAnalytics "store_1" 1 0 (fun _ => (1/2 : ℚ))).shelf_snapshots.length : ℤ)
        = 1 :=
  C9_buckets_sum "store_1" 0 (fun _ => 1/2) 1 (by norm_num)

/-- C10: with a valid random source every detection's product_id is the id
of a catalog product, so the `totalValue` lookup always finds a match and
its zero-price fallback is never taken. -/
theorem C10_catalog_lookup_total (shelfId storeId : String) (now : ℕ) (r : Rng)
    (hr : ValidRng r) (d : Detection)
    (hd : d ∈ (generateShelfSnapshot shelfId storeId now r).detections) :
    d.product_id ∈ PRODUCTS.map Product.id ∧
      (PRODUCTS.find? (fun p => p.id == d.product_id)).isSome := by
  rw [snapshot_detections, shelfDetections] at hd
  obtain ⟨i, _, rfl⟩ := List.mem_map.1 hd
  obtain ⟨h0, h1⟩ := hr (8 * i + 1)
  have hs : shiftRng r 1 (8 * i) = r (8 * i + 1) := rfl
  have hlen : PRODUCTS.length = 10 := rfl
  have hidx : (⌊shiftRng r 1 (8 * i) * (PRODUCTS.length : ℚ)⌋).toNat < PRODUCTS.length := by
    rw [hs, hlen]
    have hq : r (8 * i + 1) * ((10 : ℕ) : ℚ) < 10 := by push_cast; nlinarith
    have hf : ⌊r (8 * i + 1) * ((10 : ℕ) : ℚ)⌋ < (10 : ℤ) := by
      rw [Int.floor_lt]; exact_mod_cast hq
    omega
  have hmem : PRODUCTS.getD (⌊shiftRng r 1 (8 * i) * (PRODUCTS.length : ℚ)⌋).toNat
      dummyProduct ∈ PRODUCTS := getD_mem _ _ _ hidx
  rw [detectionAt_product_id]
  refine ⟨List.mem_map_of_mem Product.id hmem, ?_⟩
  exact List.find?_isSome.2 ⟨_, hmem, by simp⟩

/-- C10 witness: the first detection drawn from the stream constantly 1/2
carries a catalog product id and the lookup succeeds on it. -/
theorem C10_catalog_lookup_total_witness :
    (detectionAt "shelf_1" 0 (shiftRng (fun _ => (1/2 : ℚ)) 1) 0).product_id ∈
        PRODUCTS.map Product.id ∧
      (PRODUCTS.find? (fun p =>
        p.id == (detectionAt "shelf_1" 0 (shiftRng (fun _ => (1/2 : ℚ)) 1) 0).product_id)).isSome :=
  C10_catalog_lookup_total "shelf_1" "store_1" 0 (fun _ => 1/2)
    (fun _ => ⟨by norm_num, by norm_num⟩)
    (detectionAt "shelf_1" 0 (shiftRng (fun _ => (1/2 : ℚ)) 1) 0)
    (by
      rw [snapshot_detections, shelfDetections]
      refine List.mem_map_of_mem _ (List.mem_range.2 ?_)
      have h := drawCount_ge (fun _ => (1/2 : ℚ))
      omega)
